import Mathlib

/-!
# Hr_Screening_app: the browser script `public/script.js`

A shallow embedding of the two event handlers of `public/script.js` (the
submit handler of `#applyForm` and `sendChat`) together with the helpers
`appendMsg` and `toBase64`, followed by theorems about them.

Modelling conventions

* A JavaScript string is the list of its UTF-16 code units (`JSString`).
* The page (the DOM nodes the script touches, the `fetch` calls made so far
  and the number of `console.error` calls) is an explicit state `Page`; a
  handler is a function from the page before to the page after.
* What the environment decides is a parameter of the handler: how the
  `FileReader` answers (`ReadOutcome`) and how `fetch` / `res.json()` answer
  (`FetchOutcome`).
* An `async` handler runs from `await` to `await`; the model runs one handler
  call to its end without interleaving another handler, and records whether
  the promise of the handler fulfils or rejects (`Completion`).
* `WEB_APP_URL` is not defined in `script.js`; it is a parameter.
-/

namespace HrScreening

/-! ## Strings -/

/-- A JavaScript string, as the list of its UTF-16 code units. -/
abbrev JSString := List Nat

/-- The code units of a string literal of the script (all of them are ASCII). -/
def lit (s : String) : JSString := s.toList.map Char.toNat

/-- The code unit of `,`, the separator of `b64.split(',')`. -/
def comma : Nat := 0x2C

/-- ECMAScript `WhiteSpace` and `LineTerminator` code points, the ones
`String.prototype.trim` removes. -/
def isWhiteSpace (c : Nat) : Bool :=
  c == 0x09 || c == 0x0A || c == 0x0B || c == 0x0C || c == 0x0D || c == 0x20 ||
  c == 0xA0 || c == 0x1680 || (0x2000 ≤ c && c ≤ 0x200A) || c == 0x2028 ||
  c == 0x2029 || c == 0x202F || c == 0x205F || c == 0x3000 || c == 0xFEFF

/-- The method `String.prototype.trim`: drop the white space at both ends. -/
def trim (s : JSString) : JSString :=
  List.rdropWhile isWhiteSpace (List.dropWhile isWhiteSpace s)

/-- The method `String.prototype.split(sep)` for a separator of one code unit: the
segments between the occurrences of `sep`; the empty string gives `[""]`. -/
def split (sep : Nat) : JSString → List JSString
  | [] => [[]]
  | c :: cs =>
    if c = sep then [] :: split sep cs
    else
      match split sep cs with
      | [] => [[c]]
      | seg :: rest => (c :: seg) :: rest

/-- Whether the first code unit of a string is white space. -/
def startsWithWhiteSpace (s : JSString) : Bool :=
  match s.head? with
  | some c => isWhiteSpace c
  | none => false

/-- Whether the last code unit of a string is white space. -/
def endsWithWhiteSpace (s : JSString) : Bool :=
  match s.getLast? with
  | some c => isWhiteSpace c
  | none => false

/-- A string has no white space at its start and none at its end. -/
def noSurroundingWhiteSpace (s : JSString) : Prop :=
  startsWithWhiteSpace s = false ∧ endsWithWhiteSpace s = false

instance (s : JSString) : Decidable (noSurroundingWhiteSpace s) :=
  inferInstanceAs (Decidable (_ ∧ _))

/-! ## JSON documents and JavaScript values -/

/-- A JavaScript number as far as the script observes one: whether it is
falsy (`+0`, `-0`, `NaN`) and its `ToString` rendering. -/
structure JSNumber where
  falsy : Bool
  text : JSString
deriving DecidableEq

/-- A JSON document: what `JSON.stringify` writes and `res.json()` reads.
`obj` lists the members in document order. -/
inductive Json where
  | null
  | bool (b : Bool)
  | num (n : JSNumber)
  | str (s : JSString)
  | arr (items : List Json)
  | obj (members : List (JSString × Json))

/-- The property of a parsed object for a key: `JSON.parse` keeps the last
member of that name; `none` is `undefined`. -/
def lookup (key : JSString) : List (JSString × Json) → Option Json
  | [] => none
  | (k, v) :: rest =>
    match lookup key rest with
    | some w => some w
    | none => if k = key then some v else none

/-- The only exception a handler can meet besides the outcomes of the
environment. -/
inductive JSError where
  | typeError
deriving DecidableEq

/-- The expression `data.answer`: a `TypeError` on `null`, the member on an
object, `undefined` (`none`) on an array or a primitive, none of whose
prototypes has a property `answer`. -/
def getAnswer : Json → Except JSError (Option Json)
  | .null => .error .typeError
  | .obj members => .ok (lookup (lit "answer") members)
  | _ => .ok none

/-- The operation `ToBoolean` of a value read from a JSON document. -/
def truthy : Json → Bool
  | .null => false
  | .bool b => b
  | .num n => !n.falsy
  | .str s => !s.isEmpty
  | .arr _ => true
  | .obj _ => true

/-- The expression `v || d`, for `v` possibly `undefined`. -/
def orDefault (v : Option Json) (d : Json) : Json :=
  match v with
  | some x => if truthy x then x else d
  | none => d

mutual
/-- The operation `ToString` of a value read from a JSON document, `none` for the
`TypeError` of an object that cannot be converted: an object with an own
member `toString` (never callable) falls through to `valueOf`, which gives no
primitive. An array is joined with commas. -/
def Json.toStr : Json → Option JSString
  | .null => some (lit "null")
  | .bool true => some (lit "true")
  | .bool false => some (lit "false")
  | .num n => some n.text
  | .str s => some s
  | .arr items => Json.join items
  | .obj members =>
    if members.any (fun m => m.1 == lit "toString") then none
    else some (lit "[object Object]")
termination_by structural x => x
/-- The method `Array.prototype.join` with the default separator: a `null` element gives
the empty string. -/
def Json.join : List Json → Option JSString
  | [] => some []
  | x :: rest =>
    match (match x with | .null => some [] | y => Json.toStr y), Json.join rest with
    | some a, some b => some (if rest.isEmpty then a else a ++ comma :: b)
    | _, _ => none
termination_by structural x => x
end

/-- The string a DOM attribute of type `DOMString?` receives: `undefined` and
`null` give the empty text, any other value its `ToString`. -/
def toDOMString : Option Json → Option JSString
  | none => some []
  | some .null => some []
  | some v => v.toStr

/-! ## The page -/

/-- A text control of the form: its value and the default value `reset()`
restores (the markup is not part of the script). -/
structure TextInput where
  value : JSString
  defaultValue : JSString
deriving DecidableEq

/-- A selected file: the properties `name` and `type` the script reads. -/
structure File where
  name : JSString
  type : JSString
deriving DecidableEq

/-- A child `div` of `#chatLog`. -/
structure ChatMessage where
  className : JSString
  textContent : JSString
deriving DecidableEq

/-- A call of `fetch(url, init)`; `body` is the document `JSON.stringify`
wrote. -/
structure Request where
  url : JSString
  method : JSString
  mode : Option JSString
  headers : List (JSString × JSString)
  body : Json

/-- The part of the page the script reads and writes. -/
structure Page where
  /-- The property `#submitBtn.disabled`. -/
  submitDisabled : Bool
  /-- The text `#applyStatus.textContent`. -/
  status : JSString
  /-- The control `name` of `#applyForm`. -/
  nameInput : TextInput
  /-- The control `email` of `#applyForm`. -/
  emailInput : TextInput
  /-- The control `phone` of `#applyForm`. -/
  phoneInput : TextInput
  /-- The list `#resume.files`. -/
  files : List File
  /-- The children of `#chatLog`. -/
  chatLog : List ChatMessage
  /-- Whether `#chatLog` is scrolled to its newest entry. -/
  scrolledToNewest : Bool
  /-- The value `#userMsg.value`. -/
  userMsg : JSString
  /-- The calls of `fetch` so far, oldest first. -/
  fetchCalls : List Request
  /-- The number of `console.error` calls so far. -/
  consoleErrors : Nat

/-- How the `FileReader` of `toBase64` ends: `onload` with `reader.result`
(a string for `readAsDataURL`) or `onerror`. -/
inductive ReadOutcome where
  | load (result : JSString)
  | error
deriving DecidableEq

/-- How a `fetch` ends: it throws, or it gives a response whose `json()`
gives a document (`some`) or throws (`none`). -/
inductive FetchOutcome where
  | throws
  | response (json : Option Json)

/-- How the promise of an `async` handler ends. -/
inductive Completion where
  | fulfilled
  | rejected
deriving DecidableEq

/-! ## `appendMsg` -/

/-- The function `appendMsg(who, text)`: a new `div` with class `msg <who>` and the text,
appended to `#chatLog`, which is then scrolled to its end. Setting
`textContent` converts the value to a string; when that throws, nothing is
appended. -/
def appendMsg (who : JSString) (text : Option Json) (p : Page) : Except JSError Page :=
  match toDOMString text with
  | none => .error .typeError
  | some t =>
    .ok { p with
      chatLog := p.chatLog ++ [{ className := lit "msg " ++ who, textContent := t }]
      scrolledToNewest := true }

/-! ## The submit handler of `#applyForm` -/

/-- The function `toBase64(file)`: the promise resolves with `reader.result` on `onload`
and rejects on `onerror`. -/
def toBase64 (reader : File → ReadOutcome) (file : File) : ReadOutcome :=
  reader file

/-- The object `payload` of the submit handler; `fileB64` is `undefined`
(`none`) when `b64.split(',')` has no element 1. -/
structure SubmissionPayload where
  name : JSString
  email : JSString
  phone : JSString
  filename : JSString
  mimeType : JSString
  fileB64 : Option JSString
deriving DecidableEq

/-- The text `JSON.stringify(payload)` for the submission payload: the properties in
order, `kind` first; a property whose value is `undefined` is left out. -/
def SubmissionPayload.stringify (p : SubmissionPayload) : Json :=
  .obj ([(lit "kind", .str (lit "submit")),
         (lit "name", .str p.name),
         (lit "email", .str p.email),
         (lit "phone", .str p.phone),
         (lit "filename", .str p.filename),
         (lit "mimeType", .str p.mimeType)] ++
        match p.fileB64 with
        | some b => [(lit "fileB64", .str b)]
        | none => [])

/-- The payload the submit handler builds from the page, the first selected
file and the result of reading it. -/
def submissionPayload (p : Page) (file : File) (b64 : JSString) : SubmissionPayload where
  name := trim p.nameInput.value
  email := trim p.emailInput.value
  phone := trim p.phoneInput.value
  filename := file.name
  mimeType := if file.type.isEmpty then lit "application/octet-stream" else file.type
  fileB64 := (split comma b64)[1]?

/-- The `fetch` call of the submit handler. -/
def submitRequest (WEB_APP_URL : JSString) (payload : SubmissionPayload) : Request where
  url := WEB_APP_URL
  method := lit "POST"
  mode := some (lit "no-cors")
  headers := []
  body := payload.stringify

/-- The call `e.target.reset()`: the controls `name`, `email` and `phone` of
the form go back to their default values. -/
def resetForm (p : Page) : Page :=
  { p with
    nameInput := { p.nameInput with value := p.nameInput.defaultValue }
    emailInput := { p.emailInput with value := p.emailInput.defaultValue }
    phoneInput := { p.phoneInput with value := p.phoneInput.defaultValue } }

/-- The `submit` listener of `#applyForm` (lines 15-54). -/
def applyFormSubmit (WEB_APP_URL : JSString) (reader : File → ReadOutcome)
    (fetch : Request → FetchOutcome) (p : Page) : Page × Completion :=
  let p1 := { p with
    submitDisabled := true
    status := lit "Uploading and scoring your resume..." }
  match p1.files.head? with
  | none =>
    ({ p1 with status := lit "Please select a resume file.", submitDisabled := false },
      .fulfilled)
  | some file =>
    match toBase64 reader file with
    | .error => (p1, .rejected)
    | .load b64 =>
      let req := submitRequest WEB_APP_URL (submissionPayload p1 file b64)
      let p2 := { p1 with fetchCalls := p1.fetchCalls ++ [req] }
      let p3 :=
        match fetch req with
        | .response _ =>
          let p4 := { p2 with
            status := lit "Submitted! You will receive an email with next steps." }
          { resetForm p4 with files := [] }
        | .throws =>
          { p2 with
            consoleErrors := p2.consoleErrors + 1
            status := lit "Submission failed. Check console or try again." }
      ({ p3 with submitDisabled := false }, .fulfilled)

/-! ## `sendChat` -/

/-- The text `JSON.stringify(payload)` for the chat payload. -/
def chatBody (q : JSString) : Json :=
  .obj [(lit "kind", .str (lit "chat")), (lit "question", .str q)]

/-- The `fetch` call of `sendChat`. -/
def chatRequest (WEB_APP_URL : JSString) (q : JSString) : Request where
  url := WEB_APP_URL
  method := lit "POST"
  mode := none
  headers := [(lit "Content-Type", lit "application/json")]
  body := chatBody q

/-- The `catch` block of `sendChat`. -/
def chatCatch (p : Page) : Page × Completion :=
  match appendMsg (lit "bot")
      (some (.str (lit "Error getting answer. Please try again later.")))
      { p with consoleErrors := p.consoleErrors + 1 } with
  | .ok p1 => (p1, .fulfilled)
  | .error _ => ({ p with consoleErrors := p.consoleErrors + 1 }, .rejected)

/-- The function `sendChat` (lines 60-81). -/
def sendChat (WEB_APP_URL : JSString) (fetch : Request → FetchOutcome) (p : Page) :
    Page × Completion :=
  let q := trim p.userMsg
  if q.isEmpty then (p, .fulfilled)
  else
    match appendMsg (lit "user") (some (.str q)) p with
    | .error _ => (p, .rejected)
    | .ok p1 =>
      let p2 := { p1 with userMsg := [] }
      let req := chatRequest WEB_APP_URL q
      let p3 := { p2 with fetchCalls := p2.fetchCalls ++ [req] }
      match fetch req with
      | .throws => chatCatch p3
      | .response none => chatCatch p3
      | .response (some data) =>
        match getAnswer data with
        | .error _ => chatCatch p3
        | .ok answer =>
          match appendMsg (lit "bot")
              (some (orDefault answer (.str (lit "No answer received.")))) p3 with
          | .ok p4 => (p4, .fulfilled)
          | .error _ => chatCatch p3

/-! ## Observations on a request body -/

/-- Whether a JSON document is an object with a member of the given name. -/
def Json.hasKey (key : JSString) : Json → Bool
  | .obj members => members.any (fun m => m.1 == key)
  | _ => false

/-- The member of a JSON object for a key, `none` when the document is no
object or has no such member. -/
def lookupBody (key : JSString) : Json → Option Json
  | .obj members => lookup key members
  | _ => none

/-! ## Example inputs -/

/-- An endpoint URL for the examples. -/
def exampleUrl : JSString := lit "https://script.example/exec"

/-- A page with a filled form, one selected file, one earlier chat entry and
a chat input with surrounding blanks. -/
def examplePage : Page where
  submitDisabled := false
  status := []
  nameInput := { value := lit " Ada Lovelace ", defaultValue := [] }
  emailInput := { value := lit "ada@example.org ", defaultValue := [] }
  phoneInput := { value := lit " 555 0100", defaultValue := [] }
  files := [{ name := lit "cv.pdf", type := lit "application/pdf" }]
  chatLog := [{ className := lit "msg bot", textContent := lit "Welcome" }]
  scrolledToNewest := true
  userMsg := lit "  Hi there "
  fetchCalls := []
  consoleErrors := 0

/-- The example page with no file selected. -/
def examplePageNoFile : Page := { examplePage with files := [] }

/-- The example page with a file whose name starts with a blank. -/
def examplePageBlankFileName : Page :=
  { examplePage with files := [{ name := lit " cv.pdf", type := lit "application/pdf" }] }

/-- The example page with a chat input of white space only. -/
def examplePageBlankChat : Page := { examplePage with userMsg := [0x20, 0x09, 0xA0, 0x20] }

/-- A reader that loads the data URL of the spec example. -/
def exampleReader : File → ReadOutcome :=
  fun _ => .load (lit "data:application/pdf;base64,AAAA")

/-- A reader whose result has no comma. -/
def exampleReaderNoComma : File → ReadOutcome := fun _ => .load (lit "data:")

/-- A reader that fails (`onerror`). -/
def exampleReaderError : File → ReadOutcome := fun _ => .error

/-- A network whose `fetch` gives a response with an unreadable body. -/
def exampleFetchOk : Request → FetchOutcome := fun _ => .response none

/-- A network whose `fetch` throws. -/
def exampleFetchThrows : Request → FetchOutcome := fun _ => .throws

/-- A network that answers with the given JSON document. -/
def exampleFetchJson (data : Json) : Request → FetchOutcome := fun _ => .response (some data)

/-- A reader whose result has two commas. -/
def exampleReaderTwoCommas : File → ReadOutcome := fun _ => .load (lit "data:x,QUJD,REVG")

/-- The example page with markup that gives the controls `name` and `phone` a
default value. -/
def examplePageWithDefaults : Page :=
  { examplePage with
    nameInput := { value := lit " Ada Lovelace ", defaultValue := lit "Your name" }
    phoneInput := { value := lit " 555 0100", defaultValue := lit "+00" } }

/-! ## Lemmas on `trim` and `split` -/

theorem head?_rdropWhile_of_ne_nil (q : Nat → Bool) (l : JSString)
    (h : List.rdropWhile q l ≠ []) : (List.rdropWhile q l).head? = l.head? := by
  obtain ⟨t, ht⟩ := List.rdropWhile_prefix q (l := l)
  cases hr : List.rdropWhile q l with
  | nil => exact absurd hr h
  | cons a r =>
    rw [hr] at ht
    rw [← ht]
    rfl

theorem trim_noSurroundingWhiteSpace (s : JSString) : noSurroundingWhiteSpace (trim s) := by
  constructor
  · unfold startsWithWhiteSpace
    cases hc : (trim s).head? with
    | none => rfl
    | some c =>
      have hne : trim s ≠ [] := by
        intro h0
        rw [h0] at hc
        cases hc
      unfold trim at hc hne
      rw [head?_rdropWhile_of_ne_nil _ _ hne] at hc
      have h1 := List.head?_dropWhile_not isWhiteSpace s
      rw [hc] at h1
      simpa using h1
  · unfold endsWithWhiteSpace
    cases hc : (trim s).getLast? with
    | none => rfl
    | some c =>
      have hne : trim s ≠ [] := by
        intro h0
        rw [h0] at hc
        cases hc
      have h1 := List.rdropWhile_last_not (p := isWhiteSpace)
        (l := List.dropWhile isWhiteSpace s) hne
      have h2 : (trim s).getLast hne = c := by
        have := List.getLast?_eq_getLast (trim s) hne
        rw [hc] at this
        exact (Option.some.inj this).symm
      unfold trim at h2
      rw [h2] at h1
      simpa using h1

theorem trim_eq_nil_of_whiteSpace (s : JSString)
    (h : ∀ c ∈ s, isWhiteSpace c = true) : trim s = [] := by
  unfold trim
  rw [List.dropWhile_eq_nil_iff.mpr h]
  exact List.rdropWhile_nil _

theorem split_of_not_mem (sep : Nat) (a : JSString) (h : sep ∉ a) : split sep a = [a] := by
  induction a with
  | nil => rfl
  | cons c cs ih =>
    have hc : c ≠ sep := fun e => h (by simp [e])
    have hcs : sep ∉ cs := fun e => h (by simp [e])
    simp [split, hc, ih hcs]

theorem split_append (sep : Nat) (a r : JSString) (h : sep ∉ a) :
    split sep (a ++ sep :: r) = a :: split sep r := by
  induction a with
  | nil => simp [split]
  | cons c cs ih =>
    have hc : c ≠ sep := fun e => h (by simp [e])
    have hcs : sep ∉ cs := fun e => h (by simp [e])
    simp [split, hc, ih hcs]

/-! ## Lemmas on the handlers -/

theorem toDOMString_str (s : JSString) : toDOMString (some (.str s)) = some s := rfl

theorem appendMsg_str (who s : JSString) (p : Page) :
    appendMsg who (some (.str s)) p =
      .ok { p with
        chatLog := p.chatLog ++ [{ className := lit "msg " ++ who, textContent := s }]
        scrolledToNewest := true } := rfl

theorem msg_user : lit "msg " ++ lit "user" = lit "msg user" := by decide

theorem msg_bot : lit "msg " ++ lit "bot" = lit "msg bot" := by decide

theorem chatCatch_eq (p : Page) :
    chatCatch p =
      ({ p with
          consoleErrors := p.consoleErrors + 1
          chatLog := p.chatLog ++
            [{ className := lit "msg bot",
               textContent := lit "Error getting answer. Please try again later." }]
          scrolledToNewest := true }, .fulfilled) := by
  simp [chatCatch, appendMsg_str, msg_bot]

theorem isEmpty_eq_false_of_ne_nil (s : JSString) (h : s ≠ []) : s.isEmpty = false := by
  cases s with
  | nil => exact absurd rfl h
  | cons a r => rfl

/-- On every path but a failed file read the submit handler ends with the
submit control enabled and its promise fulfilled. -/
theorem applyFormSubmit_enabled_of_read (WEB_APP_URL : JSString) (reader : File → ReadOutcome)
    (fetch : Request → FetchOutcome) (p : Page)
    (h : ∀ file, p.files.head? = some file → reader file ≠ .error) :
    (applyFormSubmit WEB_APP_URL reader fetch p).1.submitDisabled = false ∧
    (applyFormSubmit WEB_APP_URL reader fetch p).2 = .fulfilled := by
  unfold applyFormSubmit
  cases hf : p.files.head? with
  | none => simp [hf]
  | some file =>
    cases hr : reader file with
    | error => exact absurd hr (h file hf)
    | load b64 =>
      simp [hf, toBase64, hr]

theorem lookup_eq_none_of_hasKey (key : JSString) (members : List (JSString × Json))
    (h : (Json.obj members).hasKey key = false) : lookup key members = none := by
  induction members with
  | nil => rfl
  | cons m rest ih =>
    obtain ⟨k, v⟩ := m
    simp only [Json.hasKey, List.any_cons, Bool.or_eq_false_iff, beq_eq_false_iff_ne] at h ih
    simp [lookup, ih h.2, h.1]

theorem applyFormSubmit_of_throws (WEB_APP_URL : JSString) (reader : File → ReadOutcome)
    (fetch : Request → FetchOutcome) (p : Page) (file : File) (b64 : JSString)
    (hfile : p.files.head? = some file) (hread : reader file = .load b64)
    (hres : fetch (submitRequest WEB_APP_URL (submissionPayload p file b64)) = .throws) :
    applyFormSubmit WEB_APP_URL reader fetch p =
      ({ p with
          submitDisabled := false
          status := lit "Submission failed. Check console or try again."
          fetchCalls :=
            p.fetchCalls ++ [submitRequest WEB_APP_URL (submissionPayload p file b64)]
          consoleErrors := p.consoleErrors + 1 }, .fulfilled) := by
  have hres1 : fetch (submitRequest WEB_APP_URL (submissionPayload
      { p with
        submitDisabled := true
        status := lit "Uploading and scoring your resume..." } file b64)) = .throws := hres
  unfold applyFormSubmit
  simp only [hfile, toBase64, hread, hres1]
  rfl

theorem applyFormSubmit_of_response (WEB_APP_URL : JSString) (reader : File → ReadOutcome)
    (fetch : Request → FetchOutcome) (p : Page) (file : File) (b64 : JSString)
    (json : Option Json)
    (hfile : p.files.head? = some file) (hread : reader file = .load b64)
    (hres : fetch (submitRequest WEB_APP_URL (submissionPayload p file b64)) =
      .response json) :
    applyFormSubmit WEB_APP_URL reader fetch p =
      ({ p with
          submitDisabled := false
          status := lit "Submitted! You will receive an email with next steps."
          nameInput := { p.nameInput with value := p.nameInput.defaultValue }
          emailInput := { p.emailInput with value := p.emailInput.defaultValue }
          phoneInput := { p.phoneInput with value := p.phoneInput.defaultValue }
          files := []
          fetchCalls :=
            p.fetchCalls ++ [submitRequest WEB_APP_URL (submissionPayload p file b64)] },
        .fulfilled) := by
  have hres1 : fetch (submitRequest WEB_APP_URL (submissionPayload
      { p with
        submitDisabled := true
        status := lit "Uploading and scoring your resume..." } file b64)) =
      .response json := hres
  unfold applyFormSubmit
  simp only [hfile, toBase64, hread, hres1]
  rfl

theorem applyFormSubmit_fetchCalls (WEB_APP_URL : JSString) (reader : File → ReadOutcome)
    (fetch : Request → FetchOutcome) (p : Page) (file : File) (b64 : JSString)
    (hfile : p.files.head? = some file) (hread : reader file = .load b64) :
    (applyFormSubmit WEB_APP_URL reader fetch p).1.fetchCalls =
      p.fetchCalls ++ [submitRequest WEB_APP_URL (submissionPayload p file b64)] := by
  cases hres : fetch (submitRequest WEB_APP_URL (submissionPayload p file b64)) with
  | throws => rw [applyFormSubmit_of_throws _ _ _ _ _ _ hfile hread hres]
  | response j => rw [applyFormSubmit_of_response _ _ _ _ _ _ _ hfile hread hres]

/-- With a file selected whose read fails, the promise of the submit handler
rejects before the `try` statement: the page keeps the disabled control and
the uploading status, and no request is sent. -/
theorem applyFormSubmit_of_read_error (WEB_APP_URL : JSString) (reader : File → ReadOutcome)
    (fetch : Request → FetchOutcome) (p : Page) (file : File)
    (hfile : p.files.head? = some file) (hread : reader file = .error) :
    applyFormSubmit WEB_APP_URL reader fetch p =
      ({ p with
          submitDisabled := true
          status := lit "Uploading and scoring your resume..." }, .rejected) := by
  unfold applyFormSubmit
  simp only [hfile, toBase64, hread]

/-! ## The claims -/

/-- Claim C1 (the code departs from it): with a file selected whose read
fails, the promise of the submit handler rejects at `await toBase64(file)`,
which stands before the `try`, so the `finally` block never runs: the submit
control stays disabled, the status keeps the uploading text and no request is
sent. -/
theorem applyFormSubmit_read_error_stays_disabled :
    (applyFormSubmit exampleUrl exampleReaderError exampleFetchOk examplePage).1.submitDisabled
        = true ∧
    (applyFormSubmit exampleUrl exampleReaderError exampleFetchOk examplePage).2
        = .rejected ∧
    (applyFormSubmit exampleUrl exampleReaderError exampleFetchOk examplePage).1.status
        = lit "Uploading and scoring your resume..." ∧
    (applyFormSubmit exampleUrl exampleReaderError exampleFetchOk examplePage).1.fetchCalls
        = [] := by
  refine ⟨rfl, rfl, rfl, rfl⟩

/-- Claim C2: when no file is selected (`fileInput.files[0]` is absent) the
submit handler makes no `fetch` call, sets the status text to
`Please select a resume file.` and leaves the submit control enabled. -/
theorem applyFormSubmit_no_file (WEB_APP_URL : JSString) (reader : File → ReadOutcome)
    (fetch : Request → FetchOutcome) (p : Page) (hfile : p.files.head? = none) :
    (applyFormSubmit WEB_APP_URL reader fetch p).1.fetchCalls = p.fetchCalls ∧
    (applyFormSubmit WEB_APP_URL reader fetch p).1.status
        = lit "Please select a resume file." ∧
    (applyFormSubmit WEB_APP_URL reader fetch p).1.submitDisabled = false := by
  simp [applyFormSubmit, hfile]

theorem applyFormSubmit_no_file_witness :
    examplePageNoFile.files.head? = none ∧
    ((applyFormSubmit exampleUrl exampleReader exampleFetchOk examplePageNoFile).1.fetchCalls
        = examplePageNoFile.fetchCalls ∧
     (applyFormSubmit exampleUrl exampleReader exampleFetchOk examplePageNoFile).1.status
        = lit "Please select a resume file." ∧
     (applyFormSubmit exampleUrl exampleReader exampleFetchOk
        examplePageNoFile).1.submitDisabled = false) :=
  ⟨rfl, applyFormSubmit_no_file exampleUrl exampleReader exampleFetchOk examplePageNoFile rfl⟩

/-- Claim C3: when the selected file is read as `head,body` with no comma in
`head` and none in `body` (a base64 string has none), the one request the
submit handler sends carries the payload whose `fileB64` is exactly `body`;
the other fields are the trimmed form values, the file name and the file type
or its default. -/
theorem applyFormSubmit_fileB64 (WEB_APP_URL : JSString) (reader : File → ReadOutcome)
    (fetch : Request → FetchOutcome) (p : Page) (file : File) (head body : JSString)
    (hfile : p.files.head? = some file)
    (hread : reader file = .load (head ++ comma :: body))
    (hhead : comma ∉ head) (hbody : comma ∉ body) :
    (applyFormSubmit WEB_APP_URL reader fetch p).1.fetchCalls =
      p.fetchCalls ++
        [submitRequest WEB_APP_URL
          { name := trim p.nameInput.value
            email := trim p.emailInput.value
            phone := trim p.phoneInput.value
            filename := file.name
            mimeType :=
              if file.type.isEmpty then lit "application/octet-stream" else file.type
            fileB64 := some body }] := by
  have hs : (split comma (head ++ comma :: body))[1]? = some body := by
    rw [split_append comma head body hhead, split_of_not_mem comma body hbody]
    rfl
  unfold applyFormSubmit
  simp only [hfile, toBase64, hread, submissionPayload, hs]
  split <;> simp [resetForm]

theorem applyFormSubmit_fileB64_witness :
    examplePage.files.head? = some { name := lit "cv.pdf", type := lit "application/pdf" } ∧
    exampleReader { name := lit "cv.pdf", type := lit "application/pdf" } =
      .load (lit "data:application/pdf;base64" ++ comma :: lit "AAAA") ∧
    comma ∉ lit "data:application/pdf;base64" ∧
    comma ∉ lit "AAAA" ∧
    (applyFormSubmit exampleUrl exampleReader exampleFetchOk examplePage).1.fetchCalls =
      examplePage.fetchCalls ++
        [submitRequest exampleUrl
          { name := trim examplePage.nameInput.value
            email := trim examplePage.emailInput.value
            phone := trim examplePage.phoneInput.value
            filename := lit "cv.pdf"
            mimeType :=
              if (lit "application/pdf").isEmpty then lit "application/octet-stream"
              else lit "application/pdf"
            fileB64 := some (lit "AAAA") }] :=
  ⟨rfl, by decide, by decide, by decide,
    applyFormSubmit_fileB64 exampleUrl exampleReader exampleFetchOk examplePage
      { name := lit "cv.pdf", type := lit "application/pdf" }
      (lit "data:application/pdf;base64") (lit "AAAA") rfl (by decide) (by decide) (by decide)⟩

/-- Claim C4 fails as stated: for a file named ` cv.pdf` the payload the
submit handler sends has `filename` equal to that name, which starts with a
blank; `file.name` is never trimmed. -/
theorem applyFormSubmit_filename_keeps_whiteSpace :
    (applyFormSubmit exampleUrl exampleReader exampleFetchOk
        examplePageBlankFileName).1.fetchCalls =
      [submitRequest exampleUrl
        { name := lit "Ada Lovelace"
          email := lit "ada@example.org"
          phone := lit "555 0100"
          filename := lit " cv.pdf"
          mimeType := lit "application/pdf"
          fileB64 := some (lit "AAAA") }] ∧
    ¬ noSurroundingWhiteSpace (lit " cv.pdf") :=
  ⟨rfl, by decide⟩

/-- Claim C4, amended: in the payload the submit handler sends, `name`,
`email` and `phone` have no white space at either end; `filename` is
`file.name` as it is, `mimeType` is `file.type` or the default for an empty
type (so it has no surrounding white space whenever `file.type` has none), and
`fileB64` is element 1 of `b64.split(',')`; none of these three is trimmed. -/
theorem applyFormSubmit_payload_fields (WEB_APP_URL : JSString)
    (reader : File → ReadOutcome) (fetch : Request → FetchOutcome) (p : Page)
    (file : File) (b64 : JSString)
    (hfile : p.files.head? = some file) (hread : reader file = .load b64) :
    ∃ payload : SubmissionPayload,
      (applyFormSubmit WEB_APP_URL reader fetch p).1.fetchCalls =
        p.fetchCalls ++ [submitRequest WEB_APP_URL payload] ∧
      noSurroundingWhiteSpace payload.name ∧
      noSurroundingWhiteSpace payload.email ∧
      noSurroundingWhiteSpace payload.phone ∧
      payload.filename = file.name ∧
      payload.mimeType =
        (if file.type.isEmpty then lit "application/octet-stream" else file.type) ∧
      (noSurroundingWhiteSpace file.type → noSurroundingWhiteSpace payload.mimeType) ∧
      payload.fileB64 = (split comma b64)[1]? := by
  refine ⟨submissionPayload p file b64, ?_, trim_noSurroundingWhiteSpace _,
    trim_noSurroundingWhiteSpace _, trim_noSurroundingWhiteSpace _, rfl, rfl, ?_, rfl⟩
  · unfold applyFormSubmit
    simp only [hfile, toBase64, hread]
    split <;> simp [resetForm, submissionPayload]
  · intro h
    unfold submissionPayload
    by_cases he : file.type.isEmpty = true
    · simp only [he, if_true]
      decide
    · simpa [he] using h

theorem applyFormSubmit_payload_fields_witness :
    examplePageBlankFileName.files.head? =
      some { name := lit " cv.pdf", type := lit "application/pdf" } ∧
    exampleReader { name := lit " cv.pdf", type := lit "application/pdf" } =
      .load (lit "data:application/pdf;base64,AAAA") ∧
    ∃ payload : SubmissionPayload,
      (applyFormSubmit exampleUrl exampleReader exampleFetchOk
          examplePageBlankFileName).1.fetchCalls =
        examplePageBlankFileName.fetchCalls ++ [submitRequest exampleUrl payload] ∧
      noSurroundingWhiteSpace payload.name ∧
      noSurroundingWhiteSpace payload.email ∧
      noSurroundingWhiteSpace payload.phone ∧
      payload.filename = lit " cv.pdf" ∧
      payload.mimeType =
        (if (lit "application/pdf").isEmpty then lit "application/octet-stream"
         else lit "application/pdf") ∧
      (noSurroundingWhiteSpace (lit "application/pdf") →
        noSurroundingWhiteSpace payload.mimeType) ∧
      payload.fileB64 = (split comma (lit "data:application/pdf;base64,AAAA"))[1]? :=
  ⟨rfl, rfl,
    applyFormSubmit_payload_fields exampleUrl exampleReader exampleFetchOk
      examplePageBlankFileName { name := lit " cv.pdf", type := lit "application/pdf" }
      (lit "data:application/pdf;base64,AAAA") rfl rfl⟩

/-- Claim C5: when the chat input is empty or holds white space only,
`sendChat` appends no message, makes no `fetch` call and leaves the input
value as it is; the whole page is unchanged. -/
theorem sendChat_blank_input (WEB_APP_URL : JSString) (fetch : Request → FetchOutcome)
    (p : Page) (hblank : ∀ c ∈ p.userMsg, isWhiteSpace c = true) :
    (sendChat WEB_APP_URL fetch p).1.chatLog = p.chatLog ∧
    (sendChat WEB_APP_URL fetch p).1.fetchCalls = p.fetchCalls ∧
    (sendChat WEB_APP_URL fetch p).1.userMsg = p.userMsg ∧
    sendChat WEB_APP_URL fetch p = (p, .fulfilled) := by
  have h : sendChat WEB_APP_URL fetch p = (p, .fulfilled) := by
    simp [sendChat, trim_eq_nil_of_whiteSpace p.userMsg hblank]
  rw [h]
  exact ⟨rfl, rfl, rfl, rfl⟩

theorem sendChat_blank_input_witness :
    (∀ c ∈ examplePageBlankChat.userMsg, isWhiteSpace c = true) ∧
    ((sendChat exampleUrl exampleFetchThrows examplePageBlankChat).1.chatLog =
        examplePageBlankChat.chatLog ∧
     (sendChat exampleUrl exampleFetchThrows examplePageBlankChat).1.fetchCalls =
        examplePageBlankChat.fetchCalls ∧
     (sendChat exampleUrl exampleFetchThrows examplePageBlankChat).1.userMsg =
        examplePageBlankChat.userMsg ∧
     sendChat exampleUrl exampleFetchThrows examplePageBlankChat =
        (examplePageBlankChat, .fulfilled)) :=
  ⟨by decide,
    sendChat_blank_input exampleUrl exampleFetchThrows examplePageBlankChat (by decide)⟩

/-- Claim C6 fails as stated: for the response whose `answer` is the empty
string, which is falsy in `data.answer || ...`, the one bot message `sendChat`
appends has the fallback text, not the empty text of the answer. -/
theorem sendChat_empty_answer_gives_fallback :
    (sendChat exampleUrl (exampleFetchJson (.obj [(lit "answer", .str [])]))
        examplePage).1.chatLog =
      examplePage.chatLog ++
        [{ className := lit "msg user", textContent := lit "Hi there" },
         { className := lit "msg bot", textContent := lit "No answer received." }] ∧
    (sendChat exampleUrl (exampleFetchJson (.obj [(lit "answer", .str [])]))
        examplePage).1.chatLog ≠
      examplePage.chatLog ++
        [{ className := lit "msg user", textContent := lit "Hi there" },
         { className := lit "msg bot", textContent := [] }] :=
  ⟨rfl, by decide⟩

/-- Claim C6, amended: for a chat input that is not empty after trimming and
a readable JSON response whose `answer` member is a non-empty string `a`,
`sendChat` appends the user message and then exactly one bot message, whose
text is `a`. -/
theorem sendChat_answer (WEB_APP_URL : JSString) (fetch : Request → FetchOutcome)
    (p : Page) (members : List (JSString × Json)) (a : JSString)
    (hq : trim p.userMsg ≠ [])
    (hresp : fetch (chatRequest WEB_APP_URL (trim p.userMsg)) =
      .response (some (.obj members)))
    (hanswer : lookup (lit "answer") members = some (.str a))
    (ha : a ≠ []) :
    (sendChat WEB_APP_URL fetch p).1.chatLog =
      p.chatLog ++
        [{ className := lit "msg user", textContent := trim p.userMsg },
         { className := lit "msg bot", textContent := a }] := by
  have hor : orDefault (some (.str a)) (.str (lit "No answer received.")) = .str a := by
    simp [orDefault, truthy, isEmpty_eq_false_of_ne_nil a ha]
  simp [sendChat, isEmpty_eq_false_of_ne_nil _ hq, appendMsg_str, hresp, getAnswer, hanswer,
    hor, msg_user, msg_bot]

theorem sendChat_answer_witness :
    trim examplePage.userMsg ≠ [] ∧
    exampleFetchJson (.obj [(lit "answer", .str (lit "Hello"))])
        (chatRequest exampleUrl (trim examplePage.userMsg)) =
      .response (some (.obj [(lit "answer", .str (lit "Hello"))])) ∧
    lookup (lit "answer") [(lit "answer", .str (lit "Hello"))] = some (.str (lit "Hello")) ∧
    lit "Hello" ≠ [] ∧
    (sendChat exampleUrl (exampleFetchJson (.obj [(lit "answer", .str (lit "Hello"))]))
        examplePage).1.chatLog =
      examplePage.chatLog ++
        [{ className := lit "msg user", textContent := trim examplePage.userMsg },
         { className := lit "msg bot", textContent := lit "Hello" }] :=
  ⟨by decide, rfl, rfl, by decide,
    sendChat_answer exampleUrl (exampleFetchJson (.obj [(lit "answer", .str (lit "Hello"))]))
      examplePage [(lit "answer", .str (lit "Hello"))] (lit "Hello") (by decide) rfl rfl
      (by decide)⟩

/-- Claim C7 fails as stated: the JSON document `null` is readable and has no
`answer` member, but `data.answer` throws on it, so the one bot message
`sendChat` appends has the error text, not the fallback text. -/
theorem sendChat_null_response_gives_error :
    Json.hasKey (lit "answer") Json.null = false ∧
    (sendChat exampleUrl (exampleFetchJson .null) examplePage).1.chatLog =
      examplePage.chatLog ++
        [{ className := lit "msg user", textContent := lit "Hi there" },
         { className := lit "msg bot",
           textContent := lit "Error getting answer. Please try again later." }] ∧
    (sendChat exampleUrl (exampleFetchJson .null) examplePage).1.chatLog ≠
      examplePage.chatLog ++
        [{ className := lit "msg user", textContent := lit "Hi there" },
         { className := lit "msg bot", textContent := lit "No answer received." }] :=
  ⟨rfl, rfl, by decide⟩

/-- Claim C7, amended: for a chat input that is not empty after trimming and
a readable JSON response other than `null` that has no `answer` member (an
object without it, an array, a string, a number or a boolean), `sendChat`
appends the user message and then exactly one bot message, whose text is
`No answer received.`. -/
theorem sendChat_no_answer (WEB_APP_URL : JSString) (fetch : Request → FetchOutcome)
    (p : Page) (data : Json)
    (hq : trim p.userMsg ≠ [])
    (hresp : fetch (chatRequest WEB_APP_URL (trim p.userMsg)) = .response (some data))
    (hnull : data ≠ .null)
    (hanswer : data.hasKey (lit "answer") = false) :
    (sendChat WEB_APP_URL fetch p).1.chatLog =
      p.chatLog ++
        [{ className := lit "msg user", textContent := trim p.userMsg },
         { className := lit "msg bot", textContent := lit "No answer received." }] := by
  have hget : getAnswer data = .ok none := by
    cases data with
    | null => exact absurd rfl hnull
    | obj members => simp [getAnswer, lookup_eq_none_of_hasKey _ _ hanswer]
    | _ => rfl
  simp [sendChat, isEmpty_eq_false_of_ne_nil _ hq, appendMsg_str, hresp, hget, orDefault,
    msg_user, msg_bot]

theorem sendChat_no_answer_witness :
    trim examplePage.userMsg ≠ [] ∧
    exampleFetchJson (.obj [(lit "status", .str (lit "ok"))])
        (chatRequest exampleUrl (trim examplePage.userMsg)) =
      .response (some (.obj [(lit "status", .str (lit "ok"))])) ∧
    Json.obj [(lit "status", .str (lit "ok"))] ≠ .null ∧
    (Json.obj [(lit "status", .str (lit "ok"))]).hasKey (lit "answer") = false ∧
    (sendChat exampleUrl (exampleFetchJson (.obj [(lit "status", .str (lit "ok"))]))
        examplePage).1.chatLog =
      examplePage.chatLog ++
        [{ className := lit "msg user", textContent := trim examplePage.userMsg },
         { className := lit "msg bot", textContent := lit "No answer received." }] :=
  ⟨by decide, rfl, Json.noConfusion, by decide,
    sendChat_no_answer exampleUrl (exampleFetchJson (.obj [(lit "status", .str (lit "ok"))]))
      examplePage (.obj [(lit "status", .str (lit "ok"))]) (by decide) rfl Json.noConfusion
      (by decide)⟩

/-- Claim C8: for a chat input whose trimmed text `q` is not empty and a
request that fails (`fetch` throws, or the body of the response is not
parseable JSON), the chat log after `sendChat` is the log before it followed
by exactly two entries, the user message `q` and then the bot message
`Error getting answer. Please try again later.`, and the input is empty. -/
theorem sendChat_request_failure (WEB_APP_URL : JSString) (fetch : Request → FetchOutcome)
    (p : Page)
    (hq : trim p.userMsg ≠ [])
    (hfail : fetch (chatRequest WEB_APP_URL (trim p.userMsg)) = .throws ∨
      fetch (chatRequest WEB_APP_URL (trim p.userMsg)) = .response none) :
    (sendChat WEB_APP_URL fetch p).1.chatLog =
      p.chatLog ++
        [{ className := lit "msg user", textContent := trim p.userMsg },
         { className := lit "msg bot",
           textContent := lit "Error getting answer. Please try again later." }] ∧
    (sendChat WEB_APP_URL fetch p).1.userMsg = [] := by
  rcases hfail with h | h <;>
    simp [sendChat, isEmpty_eq_false_of_ne_nil _ hq, appendMsg_str, h, chatCatch_eq,
      msg_user]

theorem sendChat_request_failure_witness :
    trim examplePage.userMsg ≠ [] ∧
    (exampleFetchThrows (chatRequest exampleUrl (trim examplePage.userMsg)) = .throws ∨
      exampleFetchThrows (chatRequest exampleUrl (trim examplePage.userMsg)) =
        .response none) ∧
    ((sendChat exampleUrl exampleFetchThrows examplePage).1.chatLog =
      examplePage.chatLog ++
        [{ className := lit "msg user", textContent := trim examplePage.userMsg },
         { className := lit "msg bot",
           textContent := lit "Error getting answer. Please try again later." }] ∧
    (sendChat exampleUrl exampleFetchThrows examplePage).1.userMsg = []) :=
  ⟨by decide, Or.inl rfl,
    sendChat_request_failure exampleUrl exampleFetchThrows examplePage (by decide)
      (Or.inl rfl)⟩

/-- Claim C9 fails as stated: on a page whose markup gives the controls
`name` and `phone` the default values `Your name` and `+00`, a submission that
is dispatched without a throw ends with the success status and an empty file
selection, but `e.target.reset()` leaves the form holding those default
values: the form is not cleared. -/
theorem applyFormSubmit_reset_restores_defaults :
    (applyFormSubmit exampleUrl exampleReader exampleFetchOk examplePageWithDefaults).1.status =
      lit "Submitted! You will receive an email with next steps." ∧
    (applyFormSubmit exampleUrl exampleReader exampleFetchOk examplePageWithDefaults).1.files =
      [] ∧
    (applyFormSubmit exampleUrl exampleReader exampleFetchOk
        examplePageWithDefaults).1.nameInput.value = lit "Your name" ∧
    (applyFormSubmit exampleUrl exampleReader exampleFetchOk
        examplePageWithDefaults).1.phoneInput.value = lit "+00" ∧
    (applyFormSubmit exampleUrl exampleReader exampleFetchOk
        examplePageWithDefaults).1.nameInput.value ≠ [] ∧
    (applyFormSubmit exampleUrl exampleReader exampleFetchOk
        examplePageWithDefaults).1.phoneInput.value ≠ [] :=
  ⟨rfl, rfl, rfl, rfl, by decide, by decide⟩

/-- Claim C9, amended: with a file selected whose read succeeds, the submit
handler makes exactly one `fetch` call. When that call does not throw, the
final status is `Submitted! You will receive an email with next steps.`, every
control of the form is back at its default value and the file selection is
empty. When it throws, the final status is
`Submission failed. Check console or try again.` and the controls and the file
selection are as before. -/
theorem applyFormSubmit_with_file (WEB_APP_URL : JSString) (reader : File → ReadOutcome)
    (fetch : Request → FetchOutcome) (p : Page) (file : File) (b64 : JSString)
    (hfile : p.files.head? = some file) (hread : reader file = .load b64) :
    (applyFormSubmit WEB_APP_URL reader fetch p).1.fetchCalls =
      p.fetchCalls ++ [submitRequest WEB_APP_URL (submissionPayload p file b64)] ∧
    (fetch (submitRequest WEB_APP_URL (submissionPayload p file b64)) ≠ .throws →
      (applyFormSubmit WEB_APP_URL reader fetch p).1.status =
        lit "Submitted! You will receive an email with next steps." ∧
      (applyFormSubmit WEB_APP_URL reader fetch p).1.nameInput =
        { p.nameInput with value := p.nameInput.defaultValue } ∧
      (applyFormSubmit WEB_APP_URL reader fetch p).1.emailInput =
        { p.emailInput with value := p.emailInput.defaultValue } ∧
      (applyFormSubmit WEB_APP_URL reader fetch p).1.phoneInput =
        { p.phoneInput with value := p.phoneInput.defaultValue } ∧
      (applyFormSubmit WEB_APP_URL reader fetch p).1.files = []) ∧
    (fetch (submitRequest WEB_APP_URL (submissionPayload p file b64)) = .throws →
      (applyFormSubmit WEB_APP_URL reader fetch p).1.status =
        lit "Submission failed. Check console or try again." ∧
      (applyFormSubmit WEB_APP_URL reader fetch p).1.nameInput = p.nameInput ∧
      (applyFormSubmit WEB_APP_URL reader fetch p).1.emailInput = p.emailInput ∧
      (applyFormSubmit WEB_APP_URL reader fetch p).1.phoneInput = p.phoneInput ∧
      (applyFormSubmit WEB_APP_URL reader fetch p).1.files = p.files) := by
  refine ⟨applyFormSubmit_fetchCalls _ _ _ _ _ _ hfile hread, ?_, ?_⟩
  · intro hres
    cases hj : fetch (submitRequest WEB_APP_URL (submissionPayload p file b64)) with
    | throws => exact absurd hj hres
    | response j =>
      rw [applyFormSubmit_of_response _ _ _ _ _ _ _ hfile hread hj]
      exact ⟨rfl, rfl, rfl, rfl, rfl⟩
  · intro hres
    rw [applyFormSubmit_of_throws _ _ _ _ _ _ hfile hread hres]
    exact ⟨rfl, rfl, rfl, rfl, rfl⟩

theorem applyFormSubmit_with_file_witness :
    (examplePageWithDefaults.files.head? =
        some { name := lit "cv.pdf", type := lit "application/pdf" } ∧
     exampleReader { name := lit "cv.pdf", type := lit "application/pdf" } =
        .load (lit "data:application/pdf;base64,AAAA")) ∧
    ((applyFormSubmit exampleUrl exampleReader exampleFetchOk
        examplePageWithDefaults).1.fetchCalls =
      examplePageWithDefaults.fetchCalls ++
        [submitRequest exampleUrl
          (submissionPayload examplePageWithDefaults
            { name := lit "cv.pdf", type := lit "application/pdf" }
            (lit "data:application/pdf;base64,AAAA"))] ∧
     (applyFormSubmit exampleUrl exampleReader exampleFetchOk
        examplePageWithDefaults).1.status =
      lit "Submitted! You will receive an email with next steps." ∧
     (applyFormSubmit exampleUrl exampleReader exampleFetchOk
        examplePageWithDefaults).1.nameInput =
      { value := lit "Your name", defaultValue := lit "Your name" } ∧
     (applyFormSubmit exampleUrl exampleReader exampleFetchOk
        examplePageWithDefaults).1.emailInput =
      { value := [], defaultValue := [] } ∧
     (applyFormSubmit exampleUrl exampleReader exampleFetchOk
        examplePageWithDefaults).1.phoneInput =
      { value := lit "+00", defaultValue := lit "+00" } ∧
     (applyFormSubmit exampleUrl exampleReader exampleFetchOk
        examplePageWithDefaults).1.files = []) ∧
    ((applyFormSubmit exampleUrl exampleReader exampleFetchThrows
        examplePageWithDefaults).1.fetchCalls =
      examplePageWithDefaults.fetchCalls ++
        [submitRequest exampleUrl
          (submissionPayload examplePageWithDefaults
            { name := lit "cv.pdf", type := lit "application/pdf" }
            (lit "data:application/pdf;base64,AAAA"))] ∧
     (applyFormSubmit exampleUrl exampleReader exampleFetchThrows
        examplePageWithDefaults).1.status =
      lit "Submission failed. Check console or try again." ∧
     (applyFormSubmit exampleUrl exampleReader exampleFetchThrows
        examplePageWithDefaults).1.nameInput =
      { value := lit " Ada Lovelace ", defaultValue := lit "Your name" } ∧
     (applyFormSubmit exampleUrl exampleReader exampleFetchThrows
        examplePageWithDefaults).1.emailInput =
      { value := lit "ada@example.org ", defaultValue := [] } ∧
     (applyFormSubmit exampleUrl exampleReader exampleFetchThrows
        examplePageWithDefaults).1.phoneInput =
      { value := lit " 555 0100", defaultValue := lit "+00" } ∧
     (applyFormSubmit exampleUrl exampleReader exampleFetchThrows
        examplePageWithDefaults).1.files =
      [{ name := lit "cv.pdf", type := lit "application/pdf" }]) :=
  have hok := applyFormSubmit_with_file exampleUrl exampleReader exampleFetchOk
    examplePageWithDefaults { name := lit "cv.pdf", type := lit "application/pdf" }
    (lit "data:application/pdf;base64,AAAA") rfl rfl
  have hthrows := applyFormSubmit_with_file exampleUrl exampleReader exampleFetchThrows
    examplePageWithDefaults { name := lit "cv.pdf", type := lit "application/pdf" }
    (lit "data:application/pdf;base64,AAAA") rfl rfl
  ⟨⟨rfl, rfl⟩, ⟨hok.1, hok.2.1 FetchOutcome.noConfusion⟩, ⟨hthrows.1, hthrows.2.2 rfl⟩⟩

/-- Claim C10: with a file selected whose read succeeds, the submit handler
sends the request whatever the read result looks like. When the result has no
comma, `fileB64` is `undefined` and the JSON body has the six other members
and no member `fileB64`. When the result is `a,b,c` with no comma in `a` and
none in `b`, `fileB64` is `b`, the segment between the first and the second
comma. -/
theorem applyFormSubmit_split_edge_cases (WEB_APP_URL : JSString)
    (reader : File → ReadOutcome) (fetch : Request → FetchOutcome) (p : Page)
    (file : File) (b64 : JSString)
    (hfile : p.files.head? = some file) (hread : reader file = .load b64) :
    (applyFormSubmit WEB_APP_URL reader fetch p).1.fetchCalls =
      p.fetchCalls ++ [submitRequest WEB_APP_URL (submissionPayload p file b64)] ∧
    (comma ∉ b64 →
      (submissionPayload p file b64).fileB64 = none ∧
      (submitRequest WEB_APP_URL (submissionPayload p file b64)).body =
        .obj [(lit "kind", .str (lit "submit")),
              (lit "name", .str (trim p.nameInput.value)),
              (lit "email", .str (trim p.emailInput.value)),
              (lit "phone", .str (trim p.phoneInput.value)),
              (lit "filename", .str file.name),
              (lit "mimeType", .str
                (if file.type.isEmpty then lit "application/octet-stream" else file.type))] ∧
      (submitRequest WEB_APP_URL (submissionPayload p file b64)).body.hasKey (lit "fileB64")
        = false) ∧
    (∀ a b c : JSString, comma ∉ a → comma ∉ b → b64 = a ++ comma :: (b ++ comma :: c) →
      (submissionPayload p file b64).fileB64 = some b ∧
      lookupBody (lit "fileB64") (submitRequest WEB_APP_URL (submissionPayload p file b64)).body
        = some (.str b)) := by
  refine ⟨applyFormSubmit_fetchCalls _ _ _ _ _ _ hfile hread, ?_, ?_⟩
  · intro hc
    have hs : (split comma b64)[1]? = none := by
      rw [split_of_not_mem comma b64 hc]
      rfl
    have hb : (submissionPayload p file b64).fileB64 = none := hs
    refine ⟨hb, ?_, ?_⟩
    · simp only [submitRequest, SubmissionPayload.stringify, hb]
      rfl
    · simp only [submitRequest, SubmissionPayload.stringify, hb, Json.hasKey, List.append_nil,
        List.any_cons, List.any_nil]
      decide
  · intro a b c ha hb hEq
    have hs : (split comma b64)[1]? = some b := by
      rw [hEq, split_append comma a _ ha, split_append comma b c hb]
      simp
    have hf : (submissionPayload p file b64).fileB64 = some b := hs
    refine ⟨hf, ?_⟩
    simp only [submitRequest, SubmissionPayload.stringify, hf]
    simp [lookupBody, lookup]

theorem applyFormSubmit_split_edge_cases_witness :
    (examplePage.files.head? = some { name := lit "cv.pdf", type := lit "application/pdf" } ∧
     exampleReaderNoComma { name := lit "cv.pdf", type := lit "application/pdf" } =
      .load (lit "data:") ∧
     comma ∉ lit "data:" ∧
     (applyFormSubmit exampleUrl exampleReaderNoComma exampleFetchOk examplePage).1.fetchCalls =
      examplePage.fetchCalls ++
        [submitRequest exampleUrl
          (submissionPayload examplePage { name := lit "cv.pdf", type := lit "application/pdf" }
            (lit "data:"))] ∧
     (submitRequest exampleUrl
        (submissionPayload examplePage { name := lit "cv.pdf", type := lit "application/pdf" }
          (lit "data:"))).body.hasKey (lit "fileB64") = false) ∧
    (exampleReaderTwoCommas { name := lit "cv.pdf", type := lit "application/pdf" } =
      .load (lit "data:x,QUJD,REVG") ∧
     lit "data:x,QUJD,REVG" = lit "data:x" ++ comma :: (lit "QUJD" ++ comma :: lit "REVG") ∧
     (submissionPayload examplePage { name := lit "cv.pdf", type := lit "application/pdf" }
        (lit "data:x,QUJD,REVG")).fileB64 = some (lit "QUJD")) :=
  have h1 := applyFormSubmit_split_edge_cases exampleUrl exampleReaderNoComma exampleFetchOk
    examplePage { name := lit "cv.pdf", type := lit "application/pdf" } (lit "data:") rfl rfl
  have h2 := applyFormSubmit_split_edge_cases exampleUrl exampleReaderTwoCommas exampleFetchOk
    examplePage { name := lit "cv.pdf", type := lit "application/pdf" }
    (lit "data:x,QUJD,REVG") rfl rfl
  ⟨⟨rfl, rfl, by decide, h1.1, (h1.2.1 (by decide)).2.2⟩,
   ⟨rfl, by decide,
    (h2.2.2 (lit "data:x") (lit "QUJD") (lit "REVG") (by decide) (by decide) (by decide)).1⟩⟩

end HrScreening
